import Mathlib

/-!
Verification development for the dev-herald comment-posting action.

The canonical implementation (per the spec's design notes) is the
schema-library-based pipeline: `getActionInputs` / `validateInputs` /
`buildRequestConfig` (validation.ts), `makeHttpRequest` (api.ts) and
`parseResponse` / `handleTemplateSuccess` / `handleSimpleSuccess` /
`handleApiErrorResponse` / `processResponse` (output.ts).

JavaScript platform primitives used by that code (`JSON.parse`,
`JSON.stringify`, `String.prototype.trim`, `parseInt`, `new URL`,
property access, truthiness) are modelled explicitly below; each model
carries a comment stating the simplifications made.
-/

namespace DevHerald

/-- JSON values: the model of JavaScript values produced by `JSON.parse`.
Numbers are modelled as integers (every numeric literal occurring in this
development is integral; fractional and exponent forms are outside the
model). Objects are association lists in insertion order. -/
inductive Json where
  | null : Json
  | bool : Bool → Json
  | num : Int → Json
  | str : String → Json
  | arr : List Json → Json
  | obj : List (String × Json) → Json
deriving Repr

/-- The whitespace characters recognised by JSON (RFC 8259). -/
def jsonWs (c : Char) : Bool :=
  c = ' ' || c = '\t' || c = '\n' || c = '\r'

/-- Whitespace for the model of `String.prototype.trim` / `parseInt`:
ASCII whitespace; the Unicode space characters JavaScript additionally
trims are outside the model. -/
def jsWs (c : Char) : Bool :=
  c = ' ' || c = '\t' || c = '\n' || c = '\r' || c = '\x0b' || c = '\x0c'

/-- Model of `String.prototype.trim` (also the transform applied by the
schema library's `.trim()`). -/
def jsTrim (s : String) : String :=
  String.mk (((s.data.dropWhile jsWs).reverse.dropWhile jsWs).reverse)

/-- String length as JavaScript sees it.  JS counts UTF-16 code units;
the model counts characters, which agrees on all inputs appearing in
this development. -/
def jsLength (s : String) : Nat := s.data.length

/-- Numeric value of a list of decimal digit characters. -/
def digitsToNat (ds : List Char) : Nat :=
  ds.foldl (fun a c => a * 10 + (c.toNat - 48)) 0

/-- Model of `parseInt(s, 10)`: skip leading whitespace, optional sign,
then the longest prefix of decimal digits; `none` models `NaN` (no
digits found).  Note that trailing garbage is ignored, so `"12abc"`
parses to `12`. -/
def parseIntJs (s : String) : Option Int :=
  let cs := s.data.dropWhile jsWs
  let signRest : Int × List Char :=
    match cs with
    | '-' :: r => (-1, r)
    | '+' :: r => (1, r)
    | r => (1, r)
  let ds := signRest.2.takeWhile Char.isDigit
  if ds.isEmpty then none
  else some (signRest.1 * (digitsToNat ds : Int))

/-- Decode a hexadecimal digit. -/
def hexVal (c : Char) : Option Nat :=
  if '0' ≤ c ∧ c ≤ '9' then some (c.toNat - 48)
  else if 'a' ≤ c ∧ c ≤ 'f' then some (c.toNat - 87)
  else if 'A' ≤ c ∧ c ≤ 'F' then some (c.toNat - 55)
  else none

/-- Parse the remainder of a JSON string literal (the opening quote is
already consumed), handling the escape sequences of RFC 8259. -/
def parseJsonString : Nat → List Char → Option (String × List Char)
  | 0, _ => none
  | _, [] => none
  | fuel + 1, c :: cs =>
    if c = '"' then some ("", cs)
    else if c = '\\' then
      match cs with
      | [] => none
      | e :: cs' =>
        let dec : Option (Char × List Char) :=
          if e = '"' then some ('"', cs')
          else if e = '\\' then some ('\\', cs')
          else if e = '/' then some ('/', cs')
          else if e = 'b' then some ('\x08', cs')
          else if e = 'f' then some ('\x0c', cs')
          else if e = 'n' then some ('\n', cs')
          else if e = 'r' then some ('\r', cs')
          else if e = 't' then some ('\t', cs')
          else if e = 'u' then
            match cs' with
            | h1 :: h2 :: h3 :: h4 :: cs'' =>
              match hexVal h1, hexVal h2, hexVal h3, hexVal h4 with
              | some a, some b, some c', some d =>
                some (Char.ofNat (((a * 16 + b) * 16 + c') * 16 + d), cs'')
              | _, _, _, _ => none
            | _ => none
          else none
        match dec with
        | some (ch, rest) =>
          match parseJsonString fuel rest with
          | some (s, rest') => some (String.mk (ch :: s.data), rest')
          | none => none
        | none => none
    else
      match parseJsonString fuel cs with
      | some (s, rest') => some (String.mk (c :: s.data), rest')
      | none => none

/-- Parse a JSON number.  The model accepts an optional minus sign and a
digit run (integer literals only; fraction and exponent parts are
outside the model, see `Json`). -/
def parseJsonNumber (cs : List Char) : Option (Int × List Char) :=
  match cs with
  | '-' :: rest =>
    let ds := rest.takeWhile Char.isDigit
    if ds.isEmpty then none
    else some (-(digitsToNat ds : Int), rest.drop ds.length)
  | _ =>
    let ds := cs.takeWhile Char.isDigit
    if ds.isEmpty then none
    else some ((digitsToNat ds : Int), cs.drop ds.length)

mutual

/-- Parse one JSON value (fuel-indexed recursion). -/
def parseJsonValue : Nat → List Char → Option (Json × List Char)
  | 0, _ => none
  | fuel + 1, cs =>
    match cs.dropWhile jsonWs with
    | [] => none
    | c :: rest =>
      if c = '{' then parseJsonObject fuel rest true
      else if c = '[' then parseJsonArray fuel rest true
      else if c = '"' then
        match parseJsonString fuel rest with
        | some (s, rest') => some (Json.str s, rest')
        | none => none
      else if c = 'n' then
        match rest with
        | 'u' :: 'l' :: 'l' :: rest' => some (Json.null, rest')
        | _ => none
      else if c = 't' then
        match rest with
        | 'r' :: 'u' :: 'e' :: rest' => some (Json.bool true, rest')
        | _ => none
      else if c = 'f' then
        match rest with
        | 'a' :: 'l' :: 's' :: 'e' :: rest' => some (Json.bool false, rest')
        | _ => none
      else
        match parseJsonNumber (c :: rest) with
        | some (n, rest') => some (Json.num n, rest')
        | none => none

/-- Parse the members of a JSON object after the opening brace.
`first` is true when no member has been consumed yet. -/
def parseJsonObject : Nat → List Char → Bool → Option (Json × List Char)
  | 0, _, _ => none
  | fuel + 1, cs, first =>
    match cs.dropWhile jsonWs with
    | [] => none
    | c :: rest =>
      if c = '}' ∧ first then some (Json.obj [], rest)
      else
        let csKey := if first then c :: rest else
          if c = ',' then rest.dropWhile jsonWs else []
        match csKey with
        | '"' :: afterQuote =>
          match parseJsonString fuel afterQuote with
          | some (k, afterKey) =>
            match afterKey.dropWhile jsonWs with
            | ':' :: afterColon =>
              match parseJsonValue fuel afterColon with
              | some (v, afterVal) =>
                match parseJsonObject fuel afterVal false with
                | some (Json.obj kvs, rest') => some (Json.obj ((k, v) :: kvs), rest')
                | _ => none
              | none => none
            | _ => none
          | none => none
        | _ =>
          if ¬ first ∧ c = '}' then some (Json.obj [], rest) else none

/-- Parse the elements of a JSON array after the opening bracket. -/
def parseJsonArray : Nat → List Char → Bool → Option (Json × List Char)
  | 0, _, _ => none
  | fuel + 1, cs, first =>
    match cs.dropWhile jsonWs with
    | [] => none
    | c :: rest =>
      if c = ']' ∧ first then some (Json.arr [], rest)
      else
        let csElem := if first then c :: rest else
          if c = ',' then rest else []
        if ¬ first ∧ c = ']' then some (Json.arr [], rest)
        else
          match parseJsonValue fuel csElem with
          | some (v, afterVal) =>
            match parseJsonArray fuel afterVal false with
            | some (Json.arr vs, rest') => some (Json.arr (v :: vs), rest')
            | _ => none
          | none => none

end

/-- Model of `JSON.parse`: `none` models a thrown `SyntaxError`. -/
def Json.parse (s : String) : Option Json :=
  match parseJsonValue (s.data.length + 1) s.data with
  | some (v, rest) => if (rest.dropWhile jsonWs).isEmpty then some v else none
  | none => none

/-- Escape one character for a JSON string literal, as `JSON.stringify`
does (quote, backslash and ASCII controls; other characters verbatim). -/
def escapeJsonChar (c : Char) : List Char :=
  if c = '"' then ['\\', '"']
  else if c = '\\' then ['\\', '\\']
  else if c = '\n' then ['\\', 'n']
  else if c = '\r' then ['\\', 'r']
  else if c = '\t' then ['\\', 't']
  else if c = '\x08' then ['\\', 'b']
  else if c = '\x0c' then ['\\', 'f']
  else if c.toNat < 32 then
    let h := c.toNat
    let hexDigit (n : Nat) : Char := if n < 10 then Char.ofNat (48 + n) else Char.ofNat (87 + n - 10)
    ['\\', 'u', '0', '0', hexDigit (h / 16), hexDigit (h % 16)]
  else [c]

/-- A JSON string literal for `s`, with escaping. -/
def quoteJsonString (s : String) : String :=
  String.mk ('"' :: s.data.flatMap escapeJsonChar ++ ['"'])

mutual

/-- Model of one-argument `JSON.stringify` (compact form). -/
def Json.stringify : Json → String
  | Json.null => "null"
  | Json.bool true => "true"
  | Json.bool false => "false"
  | Json.num n => toString n
  | Json.str s => quoteJsonString s
  | Json.arr es => "[" ++ Json.stringifyElems es ++ "]"
  | Json.obj kvs => "\x7b" ++ Json.stringifyMembers kvs ++ "\x7d"

/-- Comma-separated compact rendering of array elements. -/
def Json.stringifyElems : List Json → String
  | [] => ""
  | [e] => Json.stringify e
  | e :: es => Json.stringify e ++ "," ++ Json.stringifyElems es

/-- Comma-separated compact rendering of object members. -/
def Json.stringifyMembers : List (String × Json) → String
  | [] => ""
  | [kv] => quoteJsonString kv.1 ++ ":" ++ Json.stringify kv.2
  | kv :: kvs => quoteJsonString kv.1 ++ ":" ++ Json.stringify kv.2 ++ "," ++ Json.stringifyMembers kvs

end

/-- `n` spaces. -/
def indentStr (n : Nat) : String := String.mk (List.replicate n ' ')

mutual

/-- Model of `JSON.stringify(x, null, 2)` (two-space pretty printing),
at nesting depth `level`. -/
def Json.stringifyPretty (level : Nat) : Json → String
  | Json.arr [] => "[]"
  | Json.arr es =>
    "[\n" ++ Json.prettyElems (level + 1) es ++ "\n" ++ indentStr (2 * level) ++ "]"
  | Json.obj [] => "\x7b\x7d"
  | Json.obj kvs =>
    "\x7b\n" ++ Json.prettyMembers (level + 1) kvs ++ "\n" ++ indentStr (2 * level) ++ "\x7d"
  | j => Json.stringify j

/-- Pretty rendering of array elements, one per line. -/
def Json.prettyElems (level : Nat) : List Json → String
  | [] => ""
  | [e] => indentStr (2 * level) ++ Json.stringifyPretty level e
  | e :: es =>
    indentStr (2 * level) ++ Json.stringifyPretty level e ++ ",\n" ++ Json.prettyElems level es

/-- Pretty rendering of object members, one per line. -/
def Json.prettyMembers (level : Nat) : List (String × Json) → String
  | [] => ""
  | [kv] => indentStr (2 * level) ++ quoteJsonString kv.1 ++ ": " ++ Json.stringifyPretty level kv.2
  | kv :: kvs =>
    indentStr (2 * level) ++ quoteJsonString kv.1 ++ ": " ++ Json.stringifyPretty level kv.2
      ++ ",\n" ++ Json.prettyMembers level kvs

end

/-! ### Host-runtime effects and JavaScript value semantics -/

/-- Observable effects of one run: the `@actions/core` calls the code
makes, plus `httpSend`, a trace marker recording that the HTTP client
dispatched a request to the given URL. -/
inductive Effect where
  | setOutput (name : String) (value : String)
  | info (msg : String)
  | warning (msg : String)
  | setFailed (msg : String)
  | httpSend (url : String)
deriving Repr, DecidableEq

/-- Whether a handler returned normally or threw an uncaught exception
(to be caught by the top-level handler). -/
inductive Outcome where
  | ok : Outcome
  | threw (msg : String) : Outcome
deriving Repr, DecidableEq

/-- Field lookup on a JSON value: `none` models JavaScript `undefined`
(missing key, or property access on a non-object primitive). -/
def Json.getField : Json → String → Option Json
  | Json.obj kvs, k => kvs.lookup k
  | _, _ => none

/-- Model of JavaScript property access `recv.k` where `recv` is a
parsed JSON value: accessing a property of `null` throws a `TypeError`;
any other receiver yields the field (or `undefined`). -/
def jsGetE (recv : Json) (k : String) : Except String (Option Json) :=
  match recv with
  | Json.null => Except.error ("TypeError: Cannot read properties of null (reading '" ++ k ++ "')")
  | j => Except.ok (j.getField k)

/-- Model of JavaScript property access `recv.k` where `recv` may be
`undefined` (`none`): access on `undefined` or `null` throws. -/
def jsGetOptE (recv : Option Json) (k : String) : Except String (Option Json) :=
  match recv with
  | none => Except.error ("TypeError: Cannot read properties of undefined (reading '" ++ k ++ "')")
  | some j => jsGetE j k

/-- JavaScript truthiness of a possibly-undefined value. -/
def jsTruthy : Option Json → Bool
  | none => false
  | some Json.null => false
  | some (Json.bool b) => b
  | some (Json.num n) => n ≠ 0
  | some (Json.str s) => s ≠ ""
  | some (Json.arr _) => true
  | some (Json.obj _) => true

mutual

/-- Model of JavaScript string coercion `String(x)` as used by template
literals (arrays join their elements with commas, objects render as
`[object Object]`). -/
def jsDisplayJson : Json → String
  | Json.null => "null"
  | Json.bool true => "true"
  | Json.bool false => "false"
  | Json.num n => toString n
  | Json.str s => s
  | Json.arr es => jsDisplayElems es
  | Json.obj _ => "[object Object]"

/-- Array-to-string coercion: elements joined by commas, with `null`
elements rendering as the empty string. -/
def jsDisplayElems : List Json → String
  | [] => ""
  | [Json.null] => ""
  | [e] => jsDisplayJson e
  | Json.null :: es => "," ++ jsDisplayElems es
  | e :: es => jsDisplayJson e ++ "," ++ jsDisplayElems es

end

/-- String coercion of a possibly-undefined value (`undefined` renders
as the literal text `undefined` in template literals). -/
def jsDisplay : Option Json → String
  | none => "undefined"
  | some j => jsDisplayJson j

/-- Model of `@actions/core`'s `toCommandValue`, applied by `setOutput`:
`undefined` and `null` become the empty string, strings pass through,
everything else is JSON-serialized. -/
def toCommandValue : Option Json → String
  | none => ""
  | some Json.null => ""
  | some (Json.str s) => s
  | some j => Json.stringify j

/-! ### The schema library model (zod)

The validation code builds schemas with `zod` and formats the issues of
a failed parse with `formatZodError`.  An issue is modelled by the
fields `formatZodError` inspects: code, path, message, and the
code-specific context fields. -/

/-- One validation issue, as produced by the schema library. -/
structure ZodIssue where
  code : String
  path : List String
  message : String
  expected : Option String := none
  received : Option String := none
  options : Option (List String) := none
  minimum : Option Int := none
  maximum : Option Int := none
  sizeType : Option String := none
deriving Repr, DecidableEq

/-- The field path shown for an issue (`input` when the path is empty),
from `formatZodError`. -/
def fieldPathOf (err : ZodIssue) : String :=
  if err.path.isEmpty then "input" else String.intercalate "." err.path

/-- The numbered headline printed for issue `err` at position `i`
(zero-based), from the `issues.forEach` body of `formatZodError`. -/
def issueMainLine (i : Nat) (err : ZodIssue) : String :=
  "  " ++ toString (i + 1) ++ ". Field \"" ++ fieldPathOf err ++ "\": " ++ err.message

/-- The context lines printed after an issue's headline, from
`formatZodError`: expected/received for `invalid_type`, allowed values
for `invalid_value`, and min/max bounds for string and number sizes. -/
def issueContextLines (err : ZodIssue) : List String :=
  if err.code = "invalid_type" then
    match err.expected, err.received with
    | some e, some r =>
      if e ≠ "" ∧ r ≠ "" then ["     Expected: " ++ e ++ ", Received: " ++ r] else []
    | _, _ => []
  else if err.code = "invalid_value" then
    match err.options with
    | some os => ["     Allowed values: " ++ String.intercalate ", " os]
    | none => []
  else if err.code = "too_small" then
    match err.minimum with
    | some m =>
      if err.sizeType = some "string" then ["     Minimum length: " ++ toString m ++ " characters"]
      else if err.sizeType = some "number" then ["     Minimum value: " ++ toString m]
      else []
    | none => []
  else if err.code = "too_big" then
    match err.maximum with
    | some m =>
      if err.sizeType = some "string" then ["     Maximum length: " ++ toString m ++ " characters"]
      else if err.sizeType = some "number" then ["     Maximum value: " ++ toString m]
      else []
    | none => []
  else []

/-- The full list of message segments assembled by `formatZodError`
before they are joined with newlines. -/
def zodMessageList (issues : List ZodIssue) : List String :=
  ["❌ Validation failed:\n"]
    ++ (issues.enum.flatMap fun p => issueMainLine p.1 p.2 :: issueContextLines p.2)
    ++ ["\n💡 Please check your workflow file and ensure all inputs are correct."]

/-- `formatZodError`: formats schema issues into one human-readable
message. -/
def formatZodError (issues : List ZodIssue) : String :=
  String.intercalate "\n" (zodMessageList issues)

/-- The type name the schema library reports for a received value. -/
def typeNameOf : Json → String
  | Json.null => "null"
  | Json.bool _ => "boolean"
  | Json.num _ => "number"
  | Json.str _ => "string"
  | Json.arr _ => "array"
  | Json.obj _ => "object"

/-- A `Required` issue for a missing object key. -/
def requiredIssue (key expectedTy : String) : ZodIssue :=
  { code := "invalid_type", path := [key], message := "Required",
    expected := some expectedTy, received := some "undefined" }

/-- An `invalid_type` issue for a present value of the wrong type. -/
def wrongTypeIssue (path : List String) (expectedTy : String) (got : Json) : ZodIssue :=
  { code := "invalid_type", path := path,
    message := "Expected " ++ expectedTy ++ ", received " ++ typeNameOf got,
    expected := some expectedTy, received := some (typeNameOf got) }

/-- A `too_small` issue for a string under its minimum length. -/
def tooSmallString (path : List String) (minLen : Int) (msg : String) : ZodIssue :=
  { code := "too_small", path := path, message := msg,
    minimum := some minLen, sizeType := some "string" }

/-- A `too_big` issue for a string over its maximum length. -/
def tooBigString (path : List String) (maxLen : Int) (msg : String) : ZodIssue :=
  { code := "too_big", path := path, message := msg,
    maximum := some maxLen, sizeType := some "string" }

/-- A `too_small` issue for a number under its minimum. -/
def tooSmallNumber (path : List String) (minVal : Int) (msg : String) : ZodIssue :=
  { code := "too_small", path := path, message := msg,
    minimum := some minVal, sizeType := some "number" }

/-- A `too_small` issue for an array under its minimum length (note
the size type is `array`, so `formatZodError` prints no bound hint). -/
def tooSmallArray (path : List String) (minLen : Int) (msg : String) : ZodIssue :=
  { code := "too_small", path := path, message := msg,
    minimum := some minLen, sizeType := some "array" }

/-! ### Per-field schemas (validation.ts) -/

/-- Issues of `z.string().min(1, msg)` applied to the value at `key`
of an object (required field). -/
def requiredStringMin1 (j : Json) (key : String) (msg : String) : List ZodIssue :=
  match j.getField key with
  | none => [requiredIssue key "string"]
  | some (Json.str s) => if jsLength s < 1 then [tooSmallString [key] 1 msg] else []
  | some other => [wrongTypeIssue [key] "string" other]

/-- Issues of an optional `z.string()` field. -/
def optionalString (j : Json) (key : String) : List ZodIssue :=
  match j.getField key with
  | none => []
  | some (Json.str _) => []
  | some other => [wrongTypeIssue [key] "string" other]

/-- Issues of an optional `z.enum(['success', 'failure', 'pending'])`
field. -/
def optionalStatusEnum (j : Json) (key : String) : List ZodIssue :=
  match j.getField key with
  | none => []
  | some (Json.str s) =>
    if s = "success" ∨ s = "failure" ∨ s = "pending" then []
    else [{ code := "invalid_enum_value", path := [key],
            message := "Invalid enum value. Expected 'success' | 'failure' | 'pending'",
            options := some ["success", "failure", "pending"] }]
  | some other => [wrongTypeIssue [key] "string" other]

/-- Issues of `z.number().int().nonnegative(msg)` applied to the value
at `key`.  The model's numbers are integers, so the `.int()` check is
vacuous here. -/
def numberNonneg (j : Json) (key : String) (msg : String) (required : Bool) : List ZodIssue :=
  match j.getField key with
  | none => if required then [requiredIssue key "number"] else []
  | some (Json.num n) => if n < 0 then [tooSmallNumber [key] 0 msg] else []
  | some other => [wrongTypeIssue [key] "number" other]

/-- The scheme characters of a URL (RFC 3986 `scheme`). -/
def isSchemeChar (c : Char) : Bool :=
  c.isAlpha || c.isDigit || c = '+' || c = '-' || c = '.'

/-- Model of WHATWG URL parsing, reduced to what the code observes: the
scheme.  A string parses as a URL when it begins with a well-formed
scheme followed by a colon; the scheme is returned lowercased (as
`URL.protocol` reports it).  `none` models a thrown `TypeError` from
`new URL(...)`. -/
def schemeOf (s : String) : Option String :=
  let pre := s.data.takeWhile (fun c => c ≠ ':')
  if pre.length = s.data.length then none
  else
    match pre with
    | [] => none
    | c :: _ =>
      if c.isAlpha ∧ pre.all isSchemeChar then some (String.mk (pre.map Char.toLower))
      else none

/-- Model of `z.string().url()` validity: `new URL(s)` does not throw. -/
def isValidUrlJs (s : String) : Bool :=
  (schemeOf s).isSome

/-- Model of `String.prototype.startsWith`. -/
def jsStartsWith (s pre : String) : Bool :=
  pre.data.isPrefixOf s.data

/-- Issues of `apiKeySchema` (`z.string().min(1, ...)`) for the
`apiKey` field of the raw-inputs object. -/
def apiKeyIssues (apiKey : String) : List ZodIssue :=
  if jsLength apiKey < 1 then
    [tooSmallString ["apiKey"] 1 "API key is required and cannot be empty"]
  else []

/-- Issues of `prNumberSchema` (`z.number().int().positive(...)`) for
the `prNumber` field.  The action stores `parseInt(raw, 10)` there, so
the value is a number or `NaN` (modelled as `none`); `z.number()`
rejects `NaN` as an invalid type. -/
def prNumberIssues (n : Option Int) : List ZodIssue :=
  match n with
  | none =>
    [{ code := "invalid_type", path := ["prNumber"],
       message := "Expected number, received nan",
       expected := some "number", received := some "nan" }]
  | some v =>
    if v ≤ 0 then
      [tooSmallNumber ["prNumber"] 0
        "PR number must be a positive integer (e.g., 123, not 0 or negative numbers)"]
    else []

/-- Issues of the `apiUrl` field of `rawInputsSchema`
(`z.string().url(...).startsWith('https://', ...)`); the schema
library runs both string checks and accumulates their issues. -/
def apiUrlIssues (apiUrl : String) : List ZodIssue :=
  (if ¬ isValidUrlJs apiUrl then
    [{ code := "invalid_string", path := ["apiUrl"],
       message := "API URL must be a valid HTTPS URL" }]
  else [])
  ++ (if ¬ jsStartsWith apiUrl "https://" then
    [{ code := "invalid_string", path := ["apiUrl"],
       message := "API URL must use HTTPS for security" }]
  else [])

/-! ### Template-data schemas (validation.ts) -/

/-- Issues of `z.string().url(msg).optional()` for a field. -/
def optionalUrlString (j : Json) (key : String) (msg : String) : List ZodIssue :=
  match j.getField key with
  | none => []
  | some (Json.str s) =>
    if isValidUrlJs s then []
    else [{ code := "invalid_string", path := [key], message := msg }]
  | some other => [wrongTypeIssue [key] "string" other]

/-- Issues of an optional `z.array(z.any())` field. -/
def optionalAnyArray (j : Json) (key : String) : List ZodIssue :=
  match j.getField key with
  | none => []
  | some (Json.arr _) => []
  | some other => [wrongTypeIssue [key] "array" other]

/-- Issues of `deploymentDataSchema` (`.passthrough()`): requires a
non-empty `environment`; `version`, `status`, `url`, `timestamp`
optional; extra fields allowed. -/
def deploymentIssues (j : Json) : List ZodIssue :=
  match j with
  | Json.obj _ =>
    requiredStringMin1 j "environment" "Environment is required"
      ++ optionalString j "version"
      ++ optionalStatusEnum j "status"
      ++ optionalUrlString j "url" "Deployment URL must be a valid URL"
      ++ optionalString j "timestamp"
  | other => [wrongTypeIssue [] "object" other]

/-- Issues of `testResultsDataSchema` (`.passthrough()`). -/
def testResultsIssues (j : Json) : List ZodIssue :=
  match j with
  | Json.obj _ =>
    numberNonneg j "total" "Total tests must be a non-negative integer" true
      ++ numberNonneg j "passed" "Passed tests must be a non-negative integer" true
      ++ numberNonneg j "failed" "Failed tests must be a non-negative integer" true
      ++ numberNonneg j "skipped" "Skipped tests must be a non-negative integer" false
      ++ optionalString j "duration"
      ++ optionalAnyArray j "details"
  | other => [wrongTypeIssue [] "object" other]

/-- Issues of `migrationDataSchema` (`.passthrough()`). -/
def migrationIssues (j : Json) : List ZodIssue :=
  match j with
  | Json.obj _ =>
    requiredStringMin1 j "migrationName" "Migration name is required"
      ++ optionalStatusEnum j "status"
      ++ optionalString j "duration"
      ++ optionalString j "details"
  | other => [wrongTypeIssue [] "object" other]

/-- Issues of the `headers` field of `customTableDataSchema`:
`z.array(z.string()).min(1, msg)`.  The minimum-length check is
reported before per-element type issues. -/
def stringArrayMin1 (j : Json) (key : String) (msg : String) : List ZodIssue :=
  match j.getField key with
  | none => [requiredIssue key "array"]
  | some (Json.arr es) =>
    (if es.length < 1 then [tooSmallArray [key] 1 msg] else [])
      ++ (es.enum.flatMap fun p =>
          match p.2 with
          | Json.str _ => []
          | other => [wrongTypeIssue [key, toString p.1] "string" other])
  | some other => [wrongTypeIssue [key] "array" other]

/-- Issues of the `rows` field of `customTableDataSchema`:
`z.array(z.array(z.string())).min(1, msg)`. -/
def rowsArrayMin1 (j : Json) (key : String) (msg : String) : List ZodIssue :=
  match j.getField key with
  | none => [requiredIssue key "array"]
  | some (Json.arr rows) =>
    (if rows.length < 1 then [tooSmallArray [key] 1 msg] else [])
      ++ (rows.enum.flatMap fun p =>
          match p.2 with
          | Json.arr cells =>
            cells.enum.flatMap fun q =>
              match q.2 with
              | Json.str _ => []
              | other => [wrongTypeIssue [key, toString p.1, toString q.1] "string" other]
          | other => [wrongTypeIssue [key, toString p.1] "array" other])
  | some other => [wrongTypeIssue [key] "array" other]

/-- Issues of `customTableDataSchema` (`.passthrough()`): optional
`title`, required `headers` (≥ 1 string) and `rows` (≥ 1 row of
strings); extra fields allowed. -/
def customTableIssues (j : Json) : List ZodIssue :=
  match j with
  | Json.obj _ =>
    optionalString j "title"
      ++ stringArrayMin1 j "headers" "At least one table header is required"
      ++ rowsArrayMin1 j "rows" "At least one table row is required"
  | other => [wrongTypeIssue [] "object" other]

/-! ### Input validation and request construction (validation.ts) -/

/-- The valid template names of `templateTypeSchema`. -/
def validTemplates : List String :=
  ["DEPLOYMENT", "TEST_RESULTS", "MIGRATION", "CUSTOM_TABLE"]

/-- The issue produced when `templateTypeSchema` rejects a string. -/
def templateEnumIssue : ZodIssue :=
  { code := "invalid_enum_value", path := [],
    message := "Template must be one of: DEPLOYMENT, TEST_RESULTS, MIGRATION, CUSTOM_TABLE",
    options := some validTemplates }

/-- `templateTypeSchema.parse`: case-sensitive membership in the
four-name enum. -/
def templateTypeParse (s : String) : Except (List ZodIssue) String :=
  if s ∈ validTemplates then Except.ok s else Except.error [templateEnumIssue]

/-- `validateTemplateData`: dispatches to the template-specific schema.
The schema library's `.passthrough()` object parse returns an object
with exactly the input's fields; the model returns the input value
itself.  A schema failure is wrapped in the `Invalid data for ...`
message; an unknown template name raises a plain error. -/
def validateTemplateData (template : String) (data : Json) : Except String Json :=
  if template = "DEPLOYMENT" ∨ template = "TEST_RESULTS"
      ∨ template = "MIGRATION" ∨ template = "CUSTOM_TABLE" then
    let issues :=
      if template = "DEPLOYMENT" then deploymentIssues data
      else if template = "TEST_RESULTS" then testResultsIssues data
      else if template = "MIGRATION" then migrationIssues data
      else customTableIssues data
    if issues = [] then Except.ok data
    else Except.error ("Invalid data for " ++ template ++ " template:\n" ++ formatZodError issues)
  else Except.error ("Unknown template type: " ++ template)

/-- `commentSchema.parse` (`z.string().trim().min(1, ...).max(65536,
...)`): trims, then checks the trimmed length; on success the parsed
value is the trimmed string. -/
def commentSchemaParse (c : String) : Except (List ZodIssue) String :=
  let t := jsTrim c
  let issues :=
    (if jsLength t < 1 then
      [tooSmallString [] 1 "Comment text cannot be empty or contain only whitespace"]
    else [])
    ++ (if jsLength t > 65536 then
      [tooBigString [] 65536 "Comment text is too long (maximum 65,536 characters)"]
    else [])
  if issues = [] then Except.ok t else Except.error issues

/-- `stickyIdSchema.parse` on a present string
(`z.string().trim().min(1, ...).max(256, ...)`). -/
def stickyIdParse (s : String) : Except (List ZodIssue) String :=
  let t := jsTrim s
  let issues :=
    (if jsLength t < 1 then
      [tooSmallString [] 1 "sticky-id cannot be empty if provided"]
    else [])
    ++ (if jsLength t > 256 then
      [tooBigString [] 256 "sticky-id is too long (maximum 256 characters)"]
    else [])
  if issues = [] then Except.ok t else Except.error issues

/-- `ActionInputs`: the inputs after reading.  `prNumber` holds
`parseInt(raw, 10)`, so `none` models `NaN`. -/
structure ActionInputs where
  apiKey : String
  prNumber : Option Int
  comment : String
  template : String
  templateData : String
  stickyId : String
  apiUrl : String
deriving Repr, DecidableEq

/-- All issues of `rawInputsSchema.parse` on an inputs record, in the
schema's key order (the plain `z.string()` fields produce none). -/
def rawInputsIssues (i : ActionInputs) : List ZodIssue :=
  apiKeyIssues i.apiKey ++ prNumberIssues i.prNumber ++ apiUrlIssues i.apiUrl

/-- `validateInputs`: parses the inputs against `rawInputsSchema` and
converts a schema failure into an error carrying the formatted
message. -/
def validateInputs (i : ActionInputs) : Except String Unit :=
  if rawInputsIssues i = [] then Except.ok ()
  else Except.error (formatZodError (rawInputsIssues i))

/-- The mode discriminant of a `RequestConfig`. -/
inductive Mode where
  | simple : Mode
  | template : Mode
deriving Repr, DecidableEq

/-- `RequestConfig`: endpoint, JSON request body and selected mode. -/
structure RequestConfig where
  endpoint : String
  requestBody : Json
  mode : Mode
deriving Repr

/-- The `must provide either` mode-selection error message. -/
def mustProvideEitherMsg : String :=
  "❌ Must provide either \"comment\" (for simple comments) or \"template\" (for template comments)\n\n"
    ++ "💡 Example with comment:\n"
    ++ "  with:\n"
    ++ "    comment: \"## Build Complete\\n✅ All checks passed!\"\n\n"
    ++ "💡 Example with template:\n"
    ++ "  with:\n"
    ++ "    template: \"DEPLOYMENT\"\n"
    ++ "    template-data: '\x7b\"environment\": \"production\", \"status\": \"success\"\x7d'"

/-- The `cannot provide both` mode-selection error message. -/
def cannotProvideBothMsg : String :=
  "❌ Cannot provide both \"comment\" and \"template\" - choose one mode\n\n"
    ++ "💡 Either use:\n"
    ++ "  - \"comment\" for simple markdown comments\n"
    ++ "  - \"template\" + \"template-data\" for structured templates"

/-- The error message for template mode without template data. -/
def templateDataRequiredMsg (template : String) : String :=
  "❌ template-data is required when using template mode\n\n"
    ++ "💡 The " ++ template ++ " template requires JSON data. Example:\n"
    ++ "  with:\n"
    ++ "    template: \"" ++ template ++ "\"\n"
    ++ "    template-data: '\x7b\"key\": \"value\"\x7d'"

/-- The error message for unparsable template-data JSON.  The code
interpolates the engine's `SyntaxError` text; the model uses a fixed
stand-in for that engine-specific fragment. -/
def invalidTemplateJsonMsg : String :=
  "❌ Invalid JSON in template-data: Unexpected token\n\n"
    ++ "💡 Make sure your JSON is properly formatted:\n"
    ++ "  - Use single quotes around the JSON string in YAML\n"
    ++ "  - Escape special characters properly\n"
    ++ "  - Validate JSON at https://jsonlint.com\n\n"
    ++ "Example:\n"
    ++ "  template-data: '\x7b\"environment\": \"production\", \"status\": \"success\"\x7d'"

/-- The number stored into a request body: `NaN` serializes as `null`
under `JSON.stringify`. -/
def jsNumJson : Option Int → Json
  | some n => Json.num n
  | none => Json.null

/-- The sticky-id step shared by both branches of `buildRequestConfig`:
when `stickyId` is truthy and non-empty after trimming, validate it and
produce the body entry; otherwise produce nothing. -/
def stickyAdd (stickyId : String) : Except String (List (String × Json)) :=
  if stickyId ≠ "" ∧ jsLength (jsTrim stickyId) > 0 then
    match stickyIdParse stickyId with
    | Except.error issues => Except.error (formatZodError issues)
    | Except.ok v => Except.ok [("stickyId", Json.str v)]
  else Except.ok []

/-- The template-mode arm of `buildRequestConfig`: validate the
template name against the enum, require and JSON-parse `templateData`,
validate the parsed data against the template-specific schema, attach
the optional sticky id, and assemble body and endpoint. -/
def templateBranch (inputs : ActionInputs) : Except String RequestConfig :=
  match templateTypeParse inputs.template with
  | Except.error issues => Except.error (formatZodError issues)
  | Except.ok validatedTemplate =>
    if inputs.templateData = "" ∨ jsLength (jsTrim inputs.templateData) = 0 then
      Except.error (templateDataRequiredMsg inputs.template)
    else
      match Json.parse inputs.templateData with
      | none => Except.error invalidTemplateJsonMsg
      | some parsedData =>
        match validateTemplateData validatedTemplate parsedData with
        | Except.error m => Except.error m
        | Except.ok validatedData =>
          match stickyAdd inputs.stickyId with
          | Except.error m => Except.error m
          | Except.ok extra =>
            Except.ok
              { endpoint := inputs.apiUrl ++ "/comment/template",
                requestBody := Json.obj
                  ([("prNumber", jsNumJson inputs.prNumber),
                    ("template", Json.str validatedTemplate),
                    ("data", validatedData)] ++ extra),
                mode := Mode.template }

/-- The simple-comment arm of `buildRequestConfig`: validate the
comment text, attach the optional sticky id, and assemble body and
endpoint. -/
def simpleBranch (inputs : ActionInputs) : Except String RequestConfig :=
  match commentSchemaParse inputs.comment with
  | Except.error issues => Except.error (formatZodError issues)
  | Except.ok validatedComment =>
    match stickyAdd inputs.stickyId with
    | Except.error m => Except.error m
    | Except.ok extra =>
      Except.ok
        { endpoint := inputs.apiUrl ++ "/comment",
          requestBody := Json.obj
            ([("comment", Json.str validatedComment),
              ("prNumber", jsNumJson inputs.prNumber)] ++ extra),
          mode := Mode.simple }

/-- `buildRequestConfig`: selects the mode from trimmed non-emptiness
of `comment` and `template`, then runs the corresponding arm.  Thrown
errors are modelled as `Except.error` carrying the message. -/
def buildRequestConfig (inputs : ActionInputs) : Except String RequestConfig :=
  let hasComment := jsLength (jsTrim inputs.comment) > 0
  let hasTemplate := jsLength (jsTrim inputs.template) > 0
  if ¬ hasComment ∧ ¬ hasTemplate then Except.error mustProvideEitherMsg
  else if hasComment ∧ hasTemplate then Except.error cannotProvideBothMsg
  else if hasTemplate then templateBranch inputs
  else simpleBranch inputs

/-! ### Response processing (output.ts) -/

/-- `HttpResponse`: status code and raw body string. -/
structure HttpResponse where
  statusCode : Int
  data : String
deriving Repr, DecidableEq

/-- `parseResponse`: parse the body as JSON; on failure warn and wrap
the raw body as `\x7braw: <string>\x7d`. -/
def parseResponse (response : HttpResponse) : Json × List Effect :=
  match Json.parse response.data with
  | some j => (j, [])
  | none => (Json.obj [("raw", Json.str response.data)],
             [Effect.warning "Could not parse response as JSON"])

/-- `handleTemplateSuccess`: emits `comment-id` and `status` from the
nested `data` object.  The accesses `responseData.data.commentId` etc.
throw a `TypeError` when `data` is absent or `null`. -/
def handleTemplateSuccess (responseData : Json) : Except String (List Effect) :=
  match jsGetE responseData "data" with
  | Except.error e => Except.error e
  | Except.ok d =>
    match jsGetOptE d "commentId" with
    | Except.error e => Except.error e
    | Except.ok cid =>
      match jsGetOptE d "status", jsGetOptE d "message" with
      | Except.ok st, Except.ok msg =>
        Except.ok
          [Effect.setOutput "comment-id" (toCommandValue cid),
           Effect.setOutput "status" (toCommandValue st),
           Effect.info ("📝 Comment ID: " ++ jsDisplay cid),
           Effect.info ("📊 Status: " ++ jsDisplay st),
           Effect.info ("💡 " ++ jsDisplay msg)]
      | Except.error e, _ => Except.error e
      | _, Except.error e => Except.error e

/-- `handleSimpleSuccess`: emits `comment-id`, `github-comment-id`,
`github-comment-url` and a literal `status=posted`. -/
def handleSimpleSuccess (responseData : Json) : Except String (List Effect) :=
  match jsGetE responseData "commentId", jsGetE responseData "githubCommentId",
      jsGetE responseData "githubCommentUrl", jsGetE responseData "repository" with
  | Except.ok cid, Except.ok gid, Except.ok gurl, Except.ok repo =>
    Except.ok
      [Effect.setOutput "comment-id" (toCommandValue cid),
       Effect.setOutput "github-comment-id" (toCommandValue gid),
       Effect.setOutput "github-comment-url" (toCommandValue gurl),
       Effect.setOutput "status" "posted",
       Effect.info ("📝 Comment ID: " ++ jsDisplay cid),
       Effect.info ("🔗 GitHub Comment URL: " ++ jsDisplay gurl),
       Effect.info ("📦 Repository: " ++ jsDisplay repo)]
  | Except.error e, _, _, _ => Except.error e
  | _, Except.error e, _, _ => Except.error e
  | _, _, Except.error e, _ => Except.error e
  | _, _, _, Except.error e => Except.error e

/-- The string form of a truthy `details` value: strings pass through,
anything else is pretty-printed with `JSON.stringify(· , null, 2)`. -/
def detailsToStr : Option Json → String
  | some (Json.str s) => s
  | some j => Json.stringifyPretty 0 j
  | none => "undefined"

/-- The lines contributed by entry `err` (position `idx`) of the remote
`errors` array: a numbered headline with optional field and code
annotations, then the entry's `details` when truthy. -/
def errEntryLines (idx : Nat) (err : Json) : Except String (List String) :=
  match jsGetE err "message", jsGetE err "field", jsGetE err "code", jsGetE err "details" with
  | Except.ok m, Except.ok f, Except.ok c, Except.ok d =>
    let main := "  " ++ toString (idx + 1) ++ ". " ++ jsDisplay m
        ++ (if jsTruthy f then " (field: " ++ jsDisplay f ++ ")" else "")
        ++ (if jsTruthy c then " [" ++ jsDisplay c ++ "]" else "")
    Except.ok ([main] ++ (if jsTruthy d then ["     " ++ detailsToStr d] else []))
  | Except.error e, _, _, _ => Except.error e
  | _, Except.error e, _, _ => Except.error e
  | _, _, Except.error e, _ => Except.error e
  | _, _, _, Except.error e => Except.error e

/-- Lines for all entries of the `errors` array, numbered from `idx`. -/
def errEntriesLines (idx : Nat) : List Json → Except String (List String)
  | [] => Except.ok []
  | e :: rest =>
    match errEntryLines idx e with
    | Except.error m => Except.error m
    | Except.ok l =>
      match errEntriesLines (idx + 1) rest with
      | Except.error m => Except.error m
      | Except.ok ls => Except.ok (l ++ ls)

/-- The status-specific hint appended by `handleApiErrorResponse`. -/
def hintLines (statusCode : Int) : List String :=
  if statusCode = 500 then
    ["💡 This is a server error. Check your API key and project configuration."]
  else if statusCode = 401 then
    ["💡 Authentication failed. Verify your API key is valid."]
  else if statusCode = 403 then
    ["💡 Access forbidden. Check your API key permissions."]
  else if statusCode = 400 then
    ["💡 Invalid request. Review the validation errors above."]
  else []

/-- The middle (errors-array or bare-details) section of the
diagnostic built by `handleApiErrorResponse`. -/
def apiErrorMidLines (responseData : Json) (errs : Option Json) : Except String (List String) :=
  match errs with
  | some (Json.arr es) =>
    match errEntriesLines 0 es with
    | Except.error m => Except.error m
    | Except.ok entryLines => Except.ok (["", "Server validation errors:"] ++ entryLines)
  | _ =>
    match jsGetE responseData "details" with
    | Except.error m => Except.error m
    | Except.ok det =>
      if jsTruthy det then Except.ok ["", "Details: " ++ detailsToStr det]
      else Except.ok []

/-- The diagnostic lines assembled by `handleApiErrorResponse`. -/
def apiErrorLines (statusCode : Int) (responseData : Json) : Except String (List String) :=
  let line0 := "❌ API returned error (status " ++ toString statusCode ++ ")"
  match jsGetE responseData "error" with
  | Except.error m => Except.error m
  | Except.ok e =>
    let part1 := if jsTruthy e then ["   " ++ jsDisplay e] else []
    match jsGetE responseData "errors" with
    | Except.error m => Except.error m
    | Except.ok errs =>
      match apiErrorMidLines responseData errs with
      | Except.error m => Except.error m
      | Except.ok part2 =>
        match jsGetE responseData "commentId" with
        | Except.error m => Except.error m
        | Except.ok cid =>
          let part3 := if jsTruthy cid then ["", "Comment ID: " ++ jsDisplay cid] else []
          Except.ok ([line0] ++ part1 ++ part2 ++ part3 ++ [""] ++ hintLines statusCode)

/-- `handleApiErrorResponse`: joins the diagnostic lines and signals
failure with the result. -/
def handleApiErrorResponse (statusCode : Int) (responseData : Json) :
    Except String (List Effect) :=
  match apiErrorLines statusCode responseData with
  | Except.error m => Except.error m
  | Except.ok lines => Except.ok [Effect.setFailed (String.intercalate "\n" lines)]

/-- `processResponse`: parse the body, set the full `response` output,
then dispatch on the status code and mode.  The second component
records an uncaught exception from the handlers. -/
def processResponse (response : HttpResponse) (mode : Mode) : List Effect × Outcome :=
  let parsed := parseResponse response
  let responseData := parsed.1
  let pre := parsed.2 ++ [Effect.setOutput "response" (Json.stringify responseData)]
  if 200 ≤ response.statusCode ∧ response.statusCode < 300 then
    let succInfo := [Effect.info ("✅ Success! Status code: " ++ toString response.statusCode)]
    let handled :=
      match mode with
      | Mode.template => handleTemplateSuccess responseData
      | Mode.simple => handleSimpleSuccess responseData
    match handled with
    | Except.ok effs => (pre ++ succInfo ++ effs, Outcome.ok)
    | Except.error m => (pre ++ succInfo, Outcome.threw m)
  else
    match handleApiErrorResponse response.statusCode responseData with
    | Except.ok effs => (pre ++ effs, Outcome.ok)
    | Except.error m => (pre, Outcome.threw m)

/-! ### HTTP client (api.ts) and the run pipeline -/

/-- `buildHeaders`: the fixed request headers. -/
def buildHeaders (apiKey : String) : List (String × String) :=
  [("Content-Type", "application/json"),
   ("Authorization", "Bearer " ++ apiKey),
   ("User-Agent", "Dev-Herald-GitHub-Action/1.0")]

/-- `makeHttpRequest`: parses the URL (`new URL` throws on an invalid
one, rejecting the promise), rejects any non-HTTPS scheme before
sending, and otherwise dispatches the request.  `transport` models the
network; the returned effect list marks the dispatch. -/
def makeHttpRequest (url : String) (_method : String) (_headers : List (String × String))
    (body : Json) (transport : String → Json → HttpResponse) :
    Except String (List Effect × HttpResponse) :=
  match schemeOf url with
  | none => Except.error "TypeError: Invalid URL"
  | some scheme =>
    if scheme ≠ "https" then
      Except.error ("Only HTTPS URLs are allowed for security reasons. Got: " ++ scheme ++ ":")
    else
      Except.ok ([Effect.httpSend url], transport url body)

/-- The raw input strings supplied by the workflow. -/
structure RawInputs where
  apiKey : String
  prNumber : String
  comment : String
  template : String
  templateData : String
  stickyId : String
  apiUrl : String
deriving Repr, DecidableEq

/-- The default API URL used when `api-url` is not supplied. -/
def defaultApiUrl : String := "https://dev-herald.com/api/v1/github"

/-- `getActionInputs`, given the already-read raw strings.
`core.getInput` trims each value by default; `prNumber` is
`parseInt(raw, 10)`; an empty (falsy) `api-url` falls back to the
default. -/
def mkActionInputs (r : RawInputs) : ActionInputs :=
  { apiKey := jsTrim r.apiKey,
    prNumber := parseIntJs (jsTrim r.prNumber),
    comment := jsTrim r.comment,
    template := jsTrim r.template,
    templateData := jsTrim r.templateData,
    stickyId := jsTrim r.stickyId,
    apiUrl := if jsTrim r.apiUrl = "" then defaultApiUrl else jsTrim r.apiUrl }

/-- Modelled from the spec: the top-level run wiring (§2 control flow),
whose source file is not part of this repository snapshot — read the
inputs, validate them, build the request configuration, perform the
exchange through the HTTP client, process the response; every thrown
error is caught at top level and reported through the failure channel
(the `required` guard on `api-key`/`pr-number` is `@actions/core`
behaviour). -/
def runAction (r : RawInputs) (transport : String → Json → HttpResponse) : List Effect :=
  if r.apiKey = "" then [Effect.setFailed "Input required and not supplied: api-key"]
  else if r.prNumber = "" then [Effect.setFailed "Input required and not supplied: pr-number"]
  else
    let inputs := mkActionInputs r
    match validateInputs inputs with
    | Except.error m => [Effect.setFailed m]
    | Except.ok _ =>
      match buildRequestConfig inputs with
      | Except.error m => [Effect.setFailed m]
      | Except.ok cfg =>
        match makeHttpRequest cfg.endpoint "POST" (buildHeaders inputs.apiKey)
            cfg.requestBody transport with
        | Except.error m => [Effect.setFailed m]
        | Except.ok sent =>
          let processed := processResponse sent.2 cfg.mode
          sent.1 ++ processed.1
            ++ (match processed.2 with
                | Outcome.ok => []
                | Outcome.threw m => [Effect.setFailed ("❌ " ++ m)])

/-- Modelled from the spec's words (`pr-number` "parses as base-10
integer", "non-numeric"): a numeric string is an optional sign followed
by one or more decimal digits and nothing else.  This is the spec-side
notion used to compare against the code's `parseInt`-based check. -/
def specIsNumericString (s : String) : Bool :=
  let cs := match s.data with
    | '-' :: r => r
    | '+' :: r => r
    | r => r
  ¬ cs.isEmpty ∧ cs.all Char.isDigit

/-- A fixed transport for exercising the pipeline: the remote replies
`201` with an empty JSON object body. -/
def stubTransport : String → Json → HttpResponse :=
  fun _ _ => { statusCode := 201, data := "\x7b\x7d" }

/-! ## Helper lemmas -/

/-- Every issue contributes its numbered headline and its context lines
to the message list assembled by `formatZodError`. -/
lemma issue_lines_mem (issues : List ZodIssue) (i : Nat) (err : ZodIssue)
    (h : issues[i]? = some err) :
    issueMainLine i err ∈ zodMessageList issues ∧
      ∀ l ∈ issueContextLines err, l ∈ zodMessageList issues := by
  have hmem : (i, err) ∈ issues.enum := List.mem_enum_iff_getElem?.mpr h
  constructor
  · unfold zodMessageList
    refine List.mem_append.mpr (Or.inl (List.mem_append.mpr (Or.inr ?_)))
    exact List.mem_flatMap.mpr ⟨(i, err), hmem, List.mem_cons_self _ _⟩
  · intro l hl
    unfold zodMessageList
    refine List.mem_append.mpr (Or.inl (List.mem_append.mpr (Or.inr ?_)))
    exact List.mem_flatMap.mpr ⟨(i, err), hmem, List.mem_cons_of_mem _ hl⟩

/-- A string that starts with `https://` parses as a URL whose scheme
is `https`. -/
lemma schemeOf_of_https_start (u : String) (h : jsStartsWith u "https://" = true) :
    schemeOf u = some "https" := by
  unfold jsStartsWith at h
  obtain ⟨t, ht⟩ := List.isPrefixOf_iff_prefix.mp h
  have hdata : u.data = 'h' :: 't' :: 't' :: 'p' :: 's' :: ':' :: '/' :: '/' :: t := by
    rw [← ht]; rfl
  unfold schemeOf
  rw [hdata]
  simp [List.takeWhile, isSchemeChar]

/-- With a comment and no template (after trimming), `buildRequestConfig`
runs the simple arm. -/
lemma build_simple_arm (i : ActionInputs) (h1 : jsLength (jsTrim i.comment) > 0)
    (h2 : jsLength (jsTrim i.template) = 0) : buildRequestConfig i = simpleBranch i := by
  simp [buildRequestConfig, h1, h2, Nat.pos_iff_ne_zero.mp h1]

/-- With a template and no comment (after trimming), `buildRequestConfig`
runs the template arm. -/
lemma build_template_arm (i : ActionInputs) (h1 : jsLength (jsTrim i.comment) = 0)
    (h2 : jsLength (jsTrim i.template) > 0) : buildRequestConfig i = templateBranch i := by
  simp [buildRequestConfig, h1, h2, Nat.pos_iff_ne_zero.mp h2]

/-- When the raw-inputs schema rejects the inputs, the run's whole
trace is the single validation failure. -/
lemma runAction_validation_failure (r : RawInputs) (tp : String → Json → HttpResponse)
    (h : rawInputsIssues (mkActionInputs r) ≠ []) :
    ∃ m, runAction r tp = [Effect.setFailed m] := by
  unfold runAction
  by_cases hA : r.apiKey = ""
  · rw [if_pos hA]; exact ⟨_, rfl⟩
  · rw [if_neg hA]
    by_cases hP : r.prNumber = ""
    · rw [if_pos hP]; exact ⟨_, rfl⟩
    · rw [if_neg hP]
      have hv : validateInputs (mkActionInputs r)
          = Except.error (formatZodError (rawInputsIssues (mkActionInputs r))) := by
        simp [validateInputs, h]
      exact ⟨formatZodError (rawInputsIssues (mkActionInputs r)), by simp only [hv]⟩

/-- A dispatched request means the raw-inputs schema accepted the
inputs. -/
lemma runAction_send_means_valid (r : RawInputs) (tp : String → Json → HttpResponse)
    (u : String) (h : Effect.httpSend u ∈ runAction r tp) :
    rawInputsIssues (mkActionInputs r) = [] := by
  by_contra hne
  obtain ⟨m, hm⟩ := runAction_validation_failure r tp hne
  rw [hm] at h
  simp at h

/-- A value with a present field is an object. -/
lemma getField_some_obj (j : Json) (k : String) (v : Json) (h : j.getField k = some v) :
    ∃ kvs, j = Json.obj kvs := by
  cases j with
  | obj kvs => exact ⟨kvs, rfl⟩
  | null => simp [Json.getField] at h
  | bool b => simp [Json.getField] at h
  | num n => simp [Json.getField] at h
  | str s => simp [Json.getField] at h
  | arr es => simp [Json.getField] at h

/-- An accepted `simpleBranch` result is in simple mode. -/
lemma simpleBranch_mode (i : ActionInputs) (cfg : RequestConfig)
    (h : simpleBranch i = Except.ok cfg) : cfg.mode = Mode.simple := by
  unfold simpleBranch at h
  split at h
  · exact absurd h (by simp)
  · split at h
    · exact absurd h (by simp)
    · simp only [Except.ok.injEq] at h
      subst h; rfl

/-- An accepted `templateBranch` result is in template mode. -/
lemma templateBranch_mode (i : ActionInputs) (cfg : RequestConfig)
    (h : templateBranch i = Except.ok cfg) : cfg.mode = Mode.template := by
  unfold templateBranch at h
  split at h
  · exact absurd h (by simp)
  · split at h
    · exact absurd h (by simp)
    · split at h
      · exact absurd h (by simp)
      · split at h
        · exact absurd h (by simp)
        · split at h
          · exact absurd h (by simp)
          · simp only [Except.ok.injEq] at h
            subst h; rfl

/-- A non-null entry never makes `errEntryLines` throw. -/
lemma errEntryLines_ok (i : Nat) (e : Json) (h : e ≠ Json.null) :
    ∃ ls, errEntryLines i e = Except.ok ls := by
  cases e with
  | null => exact absurd rfl h
  | bool b => exact ⟨_, rfl⟩
  | num n => exact ⟨_, rfl⟩
  | str s => exact ⟨_, rfl⟩
  | arr es => exact ⟨_, rfl⟩
  | obj kvs => exact ⟨_, rfl⟩

/-- With only non-null entries, `errEntriesLines` succeeds and every
entry's lines land in the combined list. -/
lemma errEntriesLines_ok (idx : Nat) (es : List Json) (h : ∀ e ∈ es, e ≠ Json.null) :
    ∃ Ls, errEntriesLines idx es = Except.ok Ls ∧
      ∀ i e, es[i]? = some e → ∀ ls, errEntryLines (idx + i) e = Except.ok ls →
        ∀ l ∈ ls, l ∈ Ls := by
  induction es generalizing idx with
  | nil =>
    refine ⟨[], rfl, ?_⟩
    intro i e hi
    simp at hi
  | cons e rest ih =>
    obtain ⟨ls0, hls0⟩ := errEntryLines_ok idx e (h e (by simp))
    obtain ⟨Ls, hLs, hmem⟩ := ih (idx + 1) (fun x hx => h x (by simp [hx]))
    refine ⟨ls0 ++ Ls, by simp [errEntriesLines, hls0, hLs], ?_⟩
    intro i e' hi ls hls l hl
    cases i with
    | zero =>
      simp at hi
      subst hi
      rw [Nat.add_zero, hls0] at hls
      injection hls with h'
      subst h'
      exact List.mem_append.mpr (Or.inl hl)
    | succ n =>
      simp at hi
      refine List.mem_append.mpr (Or.inr (hmem n e' hi ls ?_ l hl))
      rw [show idx + 1 + n = idx + (n + 1) by omega]
      exact hls

/-- When the `errors` field is not an array, the middle diagnostic
section is the bare-details section, containing the `Details:` line
whenever a truthy `details` field is present. -/
lemma apiErrorMid_nonarr (kvs : List (String × Json)) (errs : Option Json)
    (hne : ∀ es, errs ≠ some (Json.arr es)) :
    apiErrorMidLines (Json.obj kvs) errs = Except.ok
      (if jsTruthy ((Json.obj kvs).getField "details")
       then ["", "Details: " ++ detailsToStr ((Json.obj kvs).getField "details")] else []) := by
  have hred : apiErrorMidLines (Json.obj kvs) errs =
      (if jsTruthy ((Json.obj kvs).getField "details")
       then Except.ok ["", "Details: " ++ detailsToStr ((Json.obj kvs).getField "details")]
       else Except.ok []) := by
    cases errs with
    | none => rfl
    | some v =>
      cases v with
      | arr es => exact absurd rfl (hne es)
      | null => rfl
      | bool b => rfl
      | num n => rfl
      | str s => rfl
      | obj o => rfl
  rw [hred]
  by_cases htr : jsTruthy ((Json.obj kvs).getField "details")
  · rw [if_pos htr, if_pos htr]
  · rw [if_neg htr, if_neg htr]

/-! ## Claims -/

/-- C3: mode selection in `buildRequestConfig`: when both `comment` and
`template` are empty after trimming the build fails with the
`must provide either` message; when both are non-empty after trimming
it fails with the `cannot provide both` message; when exactly one is
non-empty, mode selection succeeds — the build runs the corresponding
arm, and any accepted configuration carries the corresponding mode. -/
theorem c3_mode_selection (i : ActionInputs) :
    (jsLength (jsTrim i.comment) = 0 → jsLength (jsTrim i.template) = 0 →
      buildRequestConfig i = Except.error mustProvideEitherMsg) ∧
    (jsLength (jsTrim i.comment) > 0 → jsLength (jsTrim i.template) > 0 →
      buildRequestConfig i = Except.error cannotProvideBothMsg) ∧
    (jsLength (jsTrim i.comment) > 0 → jsLength (jsTrim i.template) = 0 →
      buildRequestConfig i = simpleBranch i ∧
        ∀ cfg, buildRequestConfig i = Except.ok cfg → cfg.mode = Mode.simple) ∧
    (jsLength (jsTrim i.comment) = 0 → jsLength (jsTrim i.template) > 0 →
      buildRequestConfig i = templateBranch i ∧
        ∀ cfg, buildRequestConfig i = Except.ok cfg → cfg.mode = Mode.template) := by
  refine ⟨?_, ?_, ?_, ?_⟩
  · intro h1 h2
    simp [buildRequestConfig, h1, h2]
  · intro h1 h2
    simp [buildRequestConfig, h1, h2, Nat.pos_iff_ne_zero.mp h1, Nat.pos_iff_ne_zero.mp h2]
  · intro h1 h2
    have hb := build_simple_arm i h1 h2
    exact ⟨hb, fun cfg hcfg => simpleBranch_mode i cfg (hb ▸ hcfg)⟩
  · intro h1 h2
    have hb := build_template_arm i h1 h2
    exact ⟨hb, fun cfg hcfg => templateBranch_mode i cfg (hb ▸ hcfg)⟩

/-- C3 witness: the spec's four mode-exclusivity examples, instantiated
concretely. -/
theorem c3_mode_selection_witness :
    (buildRequestConfig { apiKey := "k", prNumber := some 3, comment := "", template := "",
                          templateData := "", stickyId := "", apiUrl := "https://a.example" }
      = Except.error mustProvideEitherMsg) ∧
    (buildRequestConfig { apiKey := "k", prNumber := some 3, comment := "x",
                          template := "DEPLOYMENT", templateData := "", stickyId := "",
                          apiUrl := "https://a.example" }
      = Except.error cannotProvideBothMsg) ∧
    (∀ cfg, buildRequestConfig { apiKey := "k", prNumber := some 3, comment := "x",
                                 template := "", templateData := "", stickyId := "",
                                 apiUrl := "https://a.example" }
      = Except.ok cfg → cfg.mode = Mode.simple) ∧
    (∀ cfg, buildRequestConfig { apiKey := "k", prNumber := some 3, comment := "",
                                 template := "DEPLOYMENT",
                                 templateData := "\x7b\"environment\": \"production\"\x7d",
                                 stickyId := "", apiUrl := "https://a.example" }
      = Except.ok cfg → cfg.mode = Mode.template) := by
  refine ⟨?_, ?_, ?_, ?_⟩
  · exact (c3_mode_selection _).1 (by decide) (by decide)
  · exact (c3_mode_selection _).2.1 (by decide) (by decide)
  · exact ((c3_mode_selection _).2.2.1 (by decide) (by decide)).2
  · exact ((c3_mode_selection _).2.2.2 (by decide) (by decide)).2

/-- C10: a `template` input that is non-empty after trimming but
differs from its trimmed form sends `buildRequestConfig` into the
template arm (the simple-comment path is not taken), where template-name
validation fails: the enum membership check runs on the raw untrimmed
string while mode selection used the trimmed one. -/
theorem c10_untrimmed_template_fails_enum (i : ActionInputs)
    (hc : jsLength (jsTrim i.comment) = 0)
    (ht : jsLength (jsTrim i.template) > 0)
    (hw : i.template ≠ jsTrim i.template) :
    buildRequestConfig i = templateBranch i ∧
    buildRequestConfig i = Except.error (formatZodError [templateEnumIssue]) := by
  have hb := build_template_arm i hc ht
  have hnot : i.template ∉ validTemplates := by
    intro hmem
    have htrims : ∀ v ∈ validTemplates, jsTrim v = v := by decide
    exact hw ((htrims i.template hmem).symm ▸ rfl)
  refine ⟨hb, hb.trans ?_⟩
  have hparse : templateTypeParse i.template = Except.error [templateEnumIssue] := by
    simp [templateTypeParse, hnot]
  simp [templateBranch, hparse]

/-- C10 witness: the template input with surrounding whitespace from
the claim. -/
theorem c10_untrimmed_template_fails_enum_witness :
    buildRequestConfig { apiKey := "k", prNumber := some 3, comment := "",
                         template := " DEPLOYMENT ", templateData := "\x7b\x7d",
                         stickyId := "", apiUrl := "https://a.example" }
      = Except.error (formatZodError [templateEnumIssue]) :=
  (c10_untrimmed_template_fails_enum _ (by decide) (by decide) (by decide)).2

/-- C4: CUSTOM_TABLE template data round-trips: `validateTemplateData`
is the identity on every accepted CUSTOM_TABLE value (so extra fields
are preserved unchanged), the spec's `headers=["A","B"]`,
`rows=[["1","2"]]` example is accepted, and in template mode the
accepted value is forwarded unchanged as the request body's `data`
field. -/
theorem c4_custom_table_roundtrip :
    (∀ d r, validateTemplateData "CUSTOM_TABLE" d = Except.ok r → r = d) ∧
    (validateTemplateData "CUSTOM_TABLE"
        (Json.obj [("headers", Json.arr [Json.str "A", Json.str "B"]),
                   ("rows", Json.arr [Json.arr [Json.str "1", Json.str "2"]])])
      = Except.ok
        (Json.obj [("headers", Json.arr [Json.str "A", Json.str "B"]),
                   ("rows", Json.arr [Json.arr [Json.str "1", Json.str "2"]])])) ∧
    (∀ (i : ActionInputs) (d : Json),
      jsLength (jsTrim i.comment) = 0 → i.template = "CUSTOM_TABLE" →
      ¬ (i.templateData = "" ∨ jsLength (jsTrim i.templateData) = 0) →
      Json.parse i.templateData = some d →
      customTableIssues d = [] → i.stickyId = "" →
      ∃ cfg, buildRequestConfig i = Except.ok cfg ∧ cfg.mode = Mode.template ∧
        cfg.requestBody.getField "data" = some d) := by
  refine ⟨?_, by rfl, ?_⟩
  · intro d r h
    simp [validateTemplateData] at h
    split at h
    · injection h with h'
      exact h'.symm
    · exact absurd h (by simp)
  · intro i d hc htpl hne hparse hissues hsticky
    have ht : jsLength (jsTrim i.template) > 0 := by rw [htpl]; decide
    have hb := build_template_arm i hc ht
    have htp : templateTypeParse i.template = Except.ok "CUSTOM_TABLE" := by
      rw [htpl]; rfl
    have hv : validateTemplateData "CUSTOM_TABLE" d = Except.ok d := by
      simp [validateTemplateData, hissues]
    have hst : stickyAdd i.stickyId = Except.ok [] := by
      rw [hsticky]; rfl
    have hcfg : buildRequestConfig i = Except.ok
        { endpoint := i.apiUrl ++ "/comment/template",
          requestBody := Json.obj [("prNumber", jsNumJson i.prNumber),
                                   ("template", Json.str "CUSTOM_TABLE"), ("data", d)],
          mode := Mode.template } := by
      rw [hb]
      simp [templateBranch, htp, hne, hparse, hv, hst]
    exact ⟨_, hcfg, rfl, by simp [Json.getField, List.lookup]⟩

/-- C4 witness: a CUSTOM_TABLE payload with an extra field `x` is
accepted and forwarded unchanged into the request body. -/
theorem c4_custom_table_roundtrip_witness :
    ∃ cfg, buildRequestConfig
        { apiKey := "k", prNumber := some 3, comment := "", template := "CUSTOM_TABLE",
          templateData := "\x7b\"headers\":[\"A\",\"B\"],\"rows\":[[\"1\",\"2\"]],\"x\":\"y\"\x7d",
          stickyId := "", apiUrl := "https://a.example" }
      = Except.ok cfg ∧ cfg.mode = Mode.template ∧
      cfg.requestBody.getField "data"
        = some (Json.obj [("headers", Json.arr [Json.str "A", Json.str "B"]),
                          ("rows", Json.arr [Json.arr [Json.str "1", Json.str "2"]]),
                          ("x", Json.str "y")]) :=
  c4_custom_table_roundtrip.2.2 _ _
    (by decide) rfl (by decide) rfl rfl rfl

/-- C8: simple-mode comment validation: `commentSchema` accepts a
comment exactly when its trimmed length is in `[1, 65536]`, the
accepted value is the trimmed string, rejection carries the
length-specific message (empty → minimum message, too long → maximum
message), and in simple mode the request body's `comment` field is the
trimmed string. -/
theorem c8_comment_length (c : String) (i : ActionInputs) :
    ((∃ r, commentSchemaParse c = Except.ok r) ↔
      (1 ≤ jsLength (jsTrim c) ∧ jsLength (jsTrim c) ≤ 65536)) ∧
    (∀ r, commentSchemaParse c = Except.ok r → r = jsTrim c) ∧
    (jsLength (jsTrim c) = 0 →
      commentSchemaParse c = Except.error
        [tooSmallString [] 1 "Comment text cannot be empty or contain only whitespace"]) ∧
    (65536 < jsLength (jsTrim c) →
      commentSchemaParse c = Except.error
        [tooBigString [] 65536 "Comment text is too long (maximum 65,536 characters)"]) ∧
    (0 < jsLength (jsTrim i.comment) → jsLength (jsTrim i.comment) ≤ 65536 →
      jsLength (jsTrim i.template) = 0 → i.stickyId = "" →
      ∃ cfg, buildRequestConfig i = Except.ok cfg ∧ cfg.mode = Mode.simple ∧
        cfg.requestBody.getField "comment" = some (Json.str (jsTrim i.comment))) ∧
    (65536 < jsLength (jsTrim i.comment) → jsLength (jsTrim i.template) = 0 →
      buildRequestConfig i = Except.error (formatZodError
        [tooBigString [] 65536 "Comment text is too long (maximum 65,536 characters)"])) := by
  have hok : ∀ s, 1 ≤ jsLength (jsTrim s) → jsLength (jsTrim s) ≤ 65536 →
      commentSchemaParse s = Except.ok (jsTrim s) := by
    intro s h1 h2
    have hc1 : ¬ jsLength (jsTrim s) < 1 := by omega
    have hc2 : ¬ jsLength (jsTrim s) > 65536 := by omega
    simp [commentSchemaParse, hc1, hc2]
  have hbig : ∀ s, 65536 < jsLength (jsTrim s) →
      commentSchemaParse s = Except.error
        [tooBigString [] 65536 "Comment text is too long (maximum 65,536 characters)"] := by
    intro s h2
    have hc1 : ¬ jsLength (jsTrim s) < 1 := by omega
    simp [commentSchemaParse, hc1, h2]
  refine ⟨⟨?_, fun h => ⟨jsTrim c, hok c h.1 h.2⟩⟩, ?_, ?_, hbig c, ?_, ?_⟩
  · rintro ⟨r, h⟩
    by_cases h1 : jsLength (jsTrim c) < 1
    · simp [commentSchemaParse, h1] at h
    · by_cases h2 : jsLength (jsTrim c) > 65536
      · simp [commentSchemaParse, h1, h2] at h
      · omega
  · intro r h
    by_cases h1 : jsLength (jsTrim c) < 1
    · simp [commentSchemaParse, h1] at h
    · by_cases h2 : jsLength (jsTrim c) > 65536
      · simp [commentSchemaParse, h1, h2] at h
      · have := hok c (by omega) (by omega)
        rw [this] at h
        injection h with h'
        exact h'.symm
  · intro h0
    simp [commentSchemaParse, h0]
  · intro h1 h2 ht hsticky
    have hb := build_simple_arm i h1 ht
    have hst : stickyAdd i.stickyId = Except.ok [] := by rw [hsticky]; rfl
    have hcfg : buildRequestConfig i = Except.ok
        { endpoint := i.apiUrl ++ "/comment",
          requestBody := Json.obj [("comment", Json.str (jsTrim i.comment)),
                                   ("prNumber", jsNumJson i.prNumber)],
          mode := Mode.simple } := by
      rw [hb]
      simp [simpleBranch, hok i.comment h1 h2, hst]
    exact ⟨_, hcfg, rfl, by simp [Json.getField, List.lookup]⟩
  · intro h2 ht
    have hb := build_simple_arm i (by omega) ht
    rw [hb]
    simp [simpleBranch, hbig i.comment h2]

/-- C8 witness: the comment `"x"` (trimmed length 1) is accepted and
forwarded, and a whitespace-only comment is rejected with the
minimum-length message.  The too-long case is exercised on a
65537-character comment. -/
theorem c8_comment_length_witness :
    (∃ cfg, buildRequestConfig { apiKey := "k", prNumber := some 3, comment := " x ",
                                 template := "", templateData := "", stickyId := "",
                                 apiUrl := "https://a.example" }
        = Except.ok cfg ∧ cfg.mode = Mode.simple ∧
        cfg.requestBody.getField "comment" = some (Json.str "x")) ∧
    (commentSchemaParse "  " = Except.error
      [tooSmallString [] 1 "Comment text cannot be empty or contain only whitespace"]) ∧
    (commentSchemaParse (String.mk (List.replicate 65537 'a')) = Except.error
      [tooBigString [] 65536 "Comment text is too long (maximum 65,536 characters)"]) := by
  have hd : ∀ n : Nat, (List.replicate n 'a').dropWhile jsWs = List.replicate n 'a' := by
    intro n
    cases n with
    | zero => rfl
    | succ k => simp [List.replicate_succ, List.dropWhile_cons, jsWs]
  have hlen : jsLength (jsTrim (String.mk (List.replicate 65537 'a'))) = 65537 := by
    have hfix : jsTrim (String.mk (List.replicate 65537 'a'))
        = String.mk (List.replicate 65537 'a') := by
      unfold jsTrim
      rw [show (String.mk (List.replicate 65537 'a')).data = List.replicate 65537 'a' from rfl]
      rw [hd, List.reverse_replicate, hd, List.reverse_replicate]
    rw [hfix]
    unfold jsLength
    rw [show (String.mk (List.replicate 65537 'a')).data = List.replicate 65537 'a' from rfl]
    exact List.length_replicate _ _
  refine ⟨?_, ?_, ?_⟩
  · exact (c8_comment_length " x "
      { apiKey := "k", prNumber := some 3, comment := " x ", template := "",
        templateData := "", stickyId := "", apiUrl := "https://a.example" }).2.2.2.2.1
      (by decide) (by decide) (by decide) rfl
  · exact (c8_comment_length "  "
      { apiKey := "k", prNumber := some 3, comment := "", template := "",
        templateData := "", stickyId := "", apiUrl := "https://a.example" }).2.2.1 (by decide)
  · exact (c8_comment_length (String.mk (List.replicate 65537 'a'))
      { apiKey := "k", prNumber := some 3, comment := "", template := "",
        templateData := "", stickyId := "", apiUrl := "https://a.example" }).2.2.2.1
      (by rw [hlen]; omega)

/-- C9: a failed schema pass reports every violation in the one
formatted message: each issue of the pass contributes its numbered
headline (field path plus message) and its hint lines to the message
list that `formatZodError` joins into the single failure message; in
particular a template-data object violating several rules at once has
all of them reported by `validateTemplateData`. -/
theorem c9_all_violations_reported :
    (∀ (issues : List ZodIssue) (i : Nat) (err : ZodIssue), issues[i]? = some err →
      issueMainLine i err ∈ zodMessageList issues ∧
      (∀ l ∈ issueContextLines err, l ∈ zodMessageList issues) ∧
      formatZodError issues = String.intercalate "\n" (zodMessageList issues)) ∧
    (∀ d, customTableIssues d ≠ [] →
      validateTemplateData "CUSTOM_TABLE" d =
        Except.error ("Invalid data for CUSTOM_TABLE template:\n"
          ++ formatZodError (customTableIssues d))) := by
  constructor
  · intro issues i err h
    obtain ⟨h1, h2⟩ := issue_lines_mem issues i err h
    exact ⟨h1, h2, rfl⟩
  · intro d h
    simp [validateTemplateData, h]

/-- C9 witness: a CUSTOM_TABLE payload violating two rules at once
(empty `headers`, non-array `rows`) has both numbered violation lines
in the one message list. -/
theorem c9_all_violations_reported_witness :
    (issueMainLine 0 (tooSmallArray ["headers"] 1 "At least one table header is required")
      ∈ zodMessageList (customTableIssues
          (Json.obj [("headers", Json.arr []), ("rows", Json.str "x")]))) ∧
    (issueMainLine 1 (wrongTypeIssue ["rows"] "array" (Json.str "x"))
      ∈ zodMessageList (customTableIssues
          (Json.obj [("headers", Json.arr []), ("rows", Json.str "x")]))) ∧
    validateTemplateData "CUSTOM_TABLE"
        (Json.obj [("headers", Json.arr []), ("rows", Json.str "x")])
      = Except.error ("Invalid data for CUSTOM_TABLE template:\n"
          ++ formatZodError (customTableIssues
              (Json.obj [("headers", Json.arr []), ("rows", Json.str "x")]))) :=
  ⟨(c9_all_violations_reported.1 _ 0 _ (by decide)).1,
   (c9_all_violations_reported.1 _ 1 _ (by decide)).1,
   c9_all_violations_reported.2 _ (by decide)⟩

/-- C1 (amended): the run fails before any network call whenever
`parseInt(pr-number, 10)` yields `NaN` or an integer ≤ 0, and a request
is only dispatched when `parseInt` yields a positive integer.  Because
`parseInt` keeps the longest numeric prefix, this acceptance condition
is weaker than "the input is a numeric string", and the failure message
is the schema's fixed text, which does not echo the raw input. -/
theorem c1_pr_number_gate (r : RawInputs) (tp : String → Json → HttpResponse) :
    ((parseIntJs (jsTrim r.prNumber) = none ∨
        (∃ n, parseIntJs (jsTrim r.prNumber) = some n ∧ n ≤ 0)) →
      ∃ m, runAction r tp = [Effect.setFailed m]) ∧
    (∀ u, Effect.httpSend u ∈ runAction r tp →
      ∃ n, parseIntJs (jsTrim r.prNumber) = some n ∧ 0 < n) := by
  have hpr : (mkActionInputs r).prNumber = parseIntJs (jsTrim r.prNumber) := rfl
  constructor
  · intro h
    apply runAction_validation_failure
    intro heq
    have hmid : prNumberIssues (mkActionInputs r).prNumber = [] := by
      have := List.append_eq_nil.mp heq
      exact (List.append_eq_nil.mp this.1).2
    rw [hpr] at hmid
    rcases h with h | ⟨n, hn, hle⟩
    · rw [h] at hmid
      simp [prNumberIssues] at hmid
    · rw [hn] at hmid
      simp [prNumberIssues, hle] at hmid
  · intro u hu
    have heq := runAction_send_means_valid r tp u hu
    have hmid : prNumberIssues (mkActionInputs r).prNumber = [] := by
      have := List.append_eq_nil.mp heq
      exact (List.append_eq_nil.mp this.1).2
    rw [hpr] at hmid
    cases hp : parseIntJs (jsTrim r.prNumber) with
    | none => rw [hp] at hmid; simp [prNumberIssues] at hmid
    | some n =>
      rw [hp] at hmid
      refine ⟨n, rfl, ?_⟩
      by_contra hle
      simp [prNumberIssues, Int.not_lt.mp hle] at hmid

/-- C1 witness for the amended claim: `pr-number = "0"` fails before
any network call. -/
theorem c1_pr_number_gate_witness :
    ∃ m, runAction { apiKey := "k", prNumber := "0", comment := "hi", template := "",
                     templateData := "", stickyId := "", apiUrl := "" } stubTransport
      = [Effect.setFailed m] :=
  (c1_pr_number_gate _ stubTransport).1 (Or.inr ⟨0, rfl, by decide⟩)

/-- C1 counterexample to the claim as stated: `"12abc"` is not a
numeric string, yet `parseInt` accepts it as `12`, validation passes,
and a request is dispatched (the full trace contains `httpSend` and no
failure). -/
theorem c1_pr_number_counterexample :
    specIsNumericString "12abc" = false ∧
    runAction { apiKey := "k", prNumber := "12abc", comment := "hi", template := "",
                templateData := "", stickyId := "", apiUrl := "" } stubTransport
      = [Effect.httpSend "https://dev-herald.com/api/v1/github/comment",
         Effect.setOutput "response" "\x7b\x7d",
         Effect.info "✅ Success! Status code: 201",
         Effect.setOutput "comment-id" "",
         Effect.setOutput "github-comment-id" "",
         Effect.setOutput "github-comment-url" "",
         Effect.setOutput "status" "posted",
         Effect.info "📝 Comment ID: undefined",
         Effect.info "🔗 GitHub Comment URL: undefined",
         Effect.info "📦 Repository: undefined"] :=
  ⟨rfl, rfl⟩

/-- C2: an `api-url` that is not a valid URL or whose scheme is not
`https` makes the run fail at validation time — the whole trace is the
single failure and no request is ever dispatched — and, independently,
the HTTP client rejects every non-HTTPS URL before sending. -/
theorem c2_https_enforced (r : RawInputs) (tp : String → Json → HttpResponse)
    (h : ¬ (isValidUrlJs (mkActionInputs r).apiUrl = true ∧
            schemeOf (mkActionInputs r).apiUrl = some "https")) :
    (∃ m, runAction r tp = [Effect.setFailed m]) ∧
    (∀ u, Effect.httpSend u ∉ runAction r tp) ∧
    (∀ url method hd body tp2, schemeOf url ≠ some "https" →
      ∃ e, makeHttpRequest url method hd body tp2 = Except.error e) := by
  have hissues : apiUrlIssues (mkActionInputs r).apiUrl ≠ [] := by
    by_cases hvalid : isValidUrlJs (mkActionInputs r).apiUrl
    · have hscheme : schemeOf (mkActionInputs r).apiUrl ≠ some "https" := by
        intro hs; exact h ⟨hvalid, hs⟩
      have hsw : jsStartsWith (mkActionInputs r).apiUrl "https://" = false := by
        by_contra hb
        exact hscheme (schemeOf_of_https_start _ (by simpa using hb))
      simp [apiUrlIssues, hvalid, hsw]
    · simp [apiUrlIssues, hvalid]
  have hfail : ∃ m, runAction r tp = [Effect.setFailed m] := by
    apply runAction_validation_failure
    intro heq
    exact hissues (List.append_eq_nil.mp heq).2
  refine ⟨hfail, ?_, ?_⟩
  · intro u hu
    obtain ⟨m, hm⟩ := hfail
    rw [hm] at hu
    simp at hu
  · intro url method hd body tp2 hscheme
    unfold makeHttpRequest
    cases hs : schemeOf url with
    | none => exact ⟨_, rfl⟩
    | some s =>
      have : s ≠ "https" := by rw [hs] at hscheme; simpa using hscheme
      simp [this]

/-- C2 witness: `api-url = "http://x.com"` fails at validation and
nothing is sent. -/
theorem c2_https_enforced_witness :
    (∃ m, runAction { apiKey := "k", prNumber := "5", comment := "hi", template := "",
                      templateData := "", stickyId := "", apiUrl := "http://x.com" }
        stubTransport = [Effect.setFailed m]) ∧
    (∀ u, Effect.httpSend u ∉ runAction
        { apiKey := "k", prNumber := "5", comment := "hi", template := "",
          templateData := "", stickyId := "", apiUrl := "http://x.com" } stubTransport) :=
  ⟨(c2_https_enforced _ stubTransport (by decide)).1,
   (c2_https_enforced _ stubTransport (by decide)).2.1⟩

/-- C5: a 2xx response in simple mode whose body parses as JSON with
string fields `commentId`, `githubCommentId` and `githubCommentUrl`
makes `processResponse` emit them as the `comment-id`,
`github-comment-id` and `github-comment-url` outputs together with
`status = posted`, and the run succeeds: no failure is signalled. -/
theorem c5_simple_success (resp : HttpResponse) (j : Json) (c1 g1 u : String)
    (hsc : 200 ≤ resp.statusCode ∧ resp.statusCode < 300)
    (hparse : Json.parse resp.data = some j)
    (hc : j.getField "commentId" = some (Json.str c1))
    (hg : j.getField "githubCommentId" = some (Json.str g1))
    (hu : j.getField "githubCommentUrl" = some (Json.str u)) :
    ∃ effs, processResponse resp Mode.simple = (effs, Outcome.ok) ∧
      Effect.setOutput "comment-id" c1 ∈ effs ∧
      Effect.setOutput "github-comment-id" g1 ∈ effs ∧
      Effect.setOutput "github-comment-url" u ∈ effs ∧
      Effect.setOutput "status" "posted" ∈ effs ∧
      ∀ m, Effect.setFailed m ∉ effs := by
  obtain ⟨kvs, rfl⟩ := getField_some_obj _ _ _ hc
  have hh : handleSimpleSuccess (Json.obj kvs) = Except.ok
      [Effect.setOutput "comment-id" c1,
       Effect.setOutput "github-comment-id" g1,
       Effect.setOutput "github-comment-url" u,
       Effect.setOutput "status" "posted",
       Effect.info ("📝 Comment ID: " ++ c1),
       Effect.info ("🔗 GitHub Comment URL: " ++ u),
       Effect.info ("📦 Repository: " ++ jsDisplay ((Json.obj kvs).getField "repository"))] := by
    simp [handleSimpleSuccess, jsGetE, hc, hg, hu, toCommandValue, jsDisplay, jsDisplayJson]
  have hp : processResponse resp Mode.simple =
      ([Effect.setOutput "response" (Json.stringify (Json.obj kvs)),
        Effect.info ("✅ Success! Status code: " ++ toString resp.statusCode),
        Effect.setOutput "comment-id" c1,
        Effect.setOutput "github-comment-id" g1,
        Effect.setOutput "github-comment-url" u,
        Effect.setOutput "status" "posted",
        Effect.info ("📝 Comment ID: " ++ c1),
        Effect.info ("🔗 GitHub Comment URL: " ++ u),
        Effect.info ("📦 Repository: " ++ jsDisplay ((Json.obj kvs).getField "repository"))],
       Outcome.ok) := by
    simp [processResponse, parseResponse, hparse, hsc.1, hsc.2, hh]
  refine ⟨_, hp, by simp, by simp, by simp, by simp, by simp⟩

/-- C5 witness: the spec's mocked `201` response. -/
theorem c5_simple_success_witness :
    ∃ effs, processResponse
        { statusCode := 201,
          data := "\x7b\"commentId\":\"c1\",\"githubCommentId\":\"g1\",\"githubCommentUrl\":\"https://x\",\"repository\":\"r\"\x7d" }
        Mode.simple = (effs, Outcome.ok) ∧
      Effect.setOutput "comment-id" "c1" ∈ effs ∧
      Effect.setOutput "github-comment-id" "g1" ∈ effs ∧
      Effect.setOutput "github-comment-url" "https://x" ∈ effs ∧
      Effect.setOutput "status" "posted" ∈ effs ∧
      ∀ m, Effect.setFailed m ∉ effs :=
  c5_simple_success _
    (Json.obj [("commentId", Json.str "c1"), ("githubCommentId", Json.str "g1"),
               ("githubCommentUrl", Json.str "https://x"), ("repository", Json.str "r")])
    "c1" "g1" "https://x" (by decide) rfl rfl rfl rfl

/-- C7 (claim is right, code is wrong in template mode): on a 2xx
response whose body is not valid JSON, processing wraps the body as
`\x7braw: <body>\x7d` and continues — in simple mode output extraction
proceeds on the wrapped shape, emitting empty output fields and
succeeding, but in template mode the nested access
`responseData.data.commentId` throws a `TypeError` (`data` is absent on
the wrapped shape), so the run aborts instead of proceeding. -/
theorem c7_parse_failure_wrap :
    processResponse { statusCode := 200, data := "not json" } Mode.simple =
      ([Effect.warning "Could not parse response as JSON",
        Effect.setOutput "response" "\x7b\"raw\":\"not json\"\x7d",
        Effect.info "✅ Success! Status code: 200",
        Effect.setOutput "comment-id" "",
        Effect.setOutput "github-comment-id" "",
        Effect.setOutput "github-comment-url" "",
        Effect.setOutput "status" "posted",
        Effect.info "📝 Comment ID: undefined",
        Effect.info "🔗 GitHub Comment URL: undefined",
        Effect.info "📦 Repository: undefined"], Outcome.ok) ∧
    processResponse { statusCode := 200, data := "not json" } Mode.template =
      ([Effect.warning "Could not parse response as JSON",
        Effect.setOutput "response" "\x7b\"raw\":\"not json\"\x7d",
        Effect.info "✅ Success! Status code: 200"],
       Outcome.threw "TypeError: Cannot read properties of undefined (reading 'commentId')") :=
  ⟨rfl, rfl⟩

/-- C6: a non-2xx response makes `processResponse` set the `response`
output to the parsed body first and then signal failure with a
multi-line diagnostic whose first line names the status code, which
includes the remote `error` field when present, one numbered line per
entry of the `errors` array (with field annotations and pretty-printed
details when present), otherwise a bare truthy `details` field, the
error body's `commentId` when present, and the status-specific hint
for 400/401/403/500. -/
theorem c6_error_diagnostic (resp : HttpResponse) (kvs : List (String × Json)) (mode : Mode)
    (hsc : ¬ (200 ≤ resp.statusCode ∧ resp.statusCode < 300))
    (hparse : Json.parse resp.data = some (Json.obj kvs))
    (hentries : ∀ es, (Json.obj kvs).getField "errors" = some (Json.arr es) →
      ∀ e ∈ es, e ≠ Json.null) :
    ∃ L, apiErrorLines resp.statusCode (Json.obj kvs) = Except.ok L ∧
      processResponse resp mode =
        ([Effect.setOutput "response" (Json.stringify (Json.obj kvs)),
          Effect.setFailed (String.intercalate "\n" L)], Outcome.ok) ∧
      L.head? = some ("❌ API returned error (status " ++ toString resp.statusCode ++ ")") ∧
      (∀ em, (Json.obj kvs).getField "error" = some (Json.str em) → em ≠ "" →
        ("   " ++ em) ∈ L) ∧
      (∀ (es : List Json) (i : Nat) (e : Json) (ls : List String),
        (Json.obj kvs).getField "errors" = some (Json.arr es) → es[i]? = some e →
        errEntryLines i e = Except.ok ls → ∀ l ∈ ls, l ∈ L) ∧
      (∀ (es : List Json) (i : Nat) (e : Json) (m f : String),
        (Json.obj kvs).getField "errors" = some (Json.arr es) → es[i]? = some e →
        e.getField "message" = some (Json.str m) → e.getField "field" = some (Json.str f) →
        f ≠ "" → e.getField "code" = none → e.getField "details" = none →
        ("  " ++ toString (i + 1) ++ ". " ++ m ++ " (field: " ++ f ++ ")") ∈ L) ∧
      (∀ (es : List Json) (i : Nat) (e d : Json),
        (Json.obj kvs).getField "errors" = some (Json.arr es) → es[i]? = some e →
        e.getField "details" = some d → jsTruthy (some d) = true →
        ("     " ++ detailsToStr (some d)) ∈ L) ∧
      ((∀ es, (Json.obj kvs).getField "errors" ≠ some (Json.arr es)) →
        ∀ d, (Json.obj kvs).getField "details" = some d → jsTruthy (some d) = true →
        ("Details: " ++ detailsToStr (some d)) ∈ L) ∧
      (∀ cid, (Json.obj kvs).getField "commentId" = some (Json.str cid) → cid ≠ "" →
        ("Comment ID: " ++ cid) ∈ L) ∧
      (resp.statusCode = 400 → "💡 Invalid request. Review the validation errors above." ∈ L) ∧
      (resp.statusCode = 401 → "💡 Authentication failed. Verify your API key is valid." ∈ L) ∧
      (resp.statusCode = 403 → "💡 Access forbidden. Check your API key permissions." ∈ L) ∧
      (resp.statusCode = 500 →
        "💡 This is a server error. Check your API key and project configuration." ∈ L) := by
  have hmid : ∃ part2,
      apiErrorMidLines (Json.obj kvs) ((Json.obj kvs).getField "errors") = Except.ok part2 ∧
      (∀ (es : List Json) (i : Nat) (e : Json) (ls : List String),
        (Json.obj kvs).getField "errors" = some (Json.arr es) → es[i]? = some e →
        errEntryLines i e = Except.ok ls → ∀ l ∈ ls, l ∈ part2) ∧
      ((∀ es, (Json.obj kvs).getField "errors" ≠ some (Json.arr es)) →
        ∀ d, (Json.obj kvs).getField "details" = some d → jsTruthy (some d) = true →
        ("Details: " ++ detailsToStr (some d)) ∈ part2) := by
    cases herrs : (Json.obj kvs).getField "errors" with
    | some v =>
      cases v with
      | arr es =>
        obtain ⟨Ls, hLs, hmem⟩ := errEntriesLines_ok 0 es (hentries es herrs)
        refine ⟨["", "Server validation errors:"] ++ Ls, ?_, ?_, ?_⟩
        · simp [apiErrorMidLines, hLs]
        · intro es' i e ls h1 hi hentry l hl
          have hes : es = es' := by
            injection h1 with h1'
            injection h1'
          subst hes
          have : l ∈ Ls := by
            refine hmem i e hi ls ?_ l hl
            rw [Nat.zero_add]
            exact hentry
          simp only [List.mem_append]
          tauto
        · intro hno
          exact absurd rfl (hno es)
      | null =>
        exact ⟨_, apiErrorMid_nonarr kvs _ (by simp), by intro es' i e ls h1; simp at h1,
          by intro _ d hd htr; simp [hd] at htr ⊢; simp [htr]⟩
      | bool b =>
        exact ⟨_, apiErrorMid_nonarr kvs _ (by simp), by intro es' i e ls h1; simp at h1,
          by intro _ d hd htr; simp [hd] at htr ⊢; simp [htr]⟩
      | num n =>
        exact ⟨_, apiErrorMid_nonarr kvs _ (by simp), by intro es' i e ls h1; simp at h1,
          by intro _ d hd htr; simp [hd] at htr ⊢; simp [htr]⟩
      | str s =>
        exact ⟨_, apiErrorMid_nonarr kvs _ (by simp), by intro es' i e ls h1; simp at h1,
          by intro _ d hd htr; simp [hd] at htr ⊢; simp [htr]⟩
      | obj o =>
        exact ⟨_, apiErrorMid_nonarr kvs _ (by simp), by intro es' i e ls h1; simp at h1,
          by intro _ d hd htr; simp [hd] at htr ⊢; simp [htr]⟩
    | none =>
      exact ⟨_, apiErrorMid_nonarr kvs _ (by simp), by intro es' i e ls h1; simp at h1,
        by intro _ d hd htr; simp [hd] at htr ⊢; simp [htr]⟩
  obtain ⟨part2, hp2, hP1, hP2⟩ := hmid
  have hok : apiErrorLines resp.statusCode (Json.obj kvs) = Except.ok
      (["❌ API returned error (status " ++ toString resp.statusCode ++ ")"]
        ++ (if jsTruthy ((Json.obj kvs).getField "error")
            then ["   " ++ jsDisplay ((Json.obj kvs).getField "error")] else [])
        ++ part2
        ++ (if jsTruthy ((Json.obj kvs).getField "commentId")
            then ["", "Comment ID: " ++ jsDisplay ((Json.obj kvs).getField "commentId")] else [])
        ++ [""] ++ hintLines resp.statusCode) := by
    simp [apiErrorLines, jsGetE, hp2]
  refine ⟨_, hok, ?_, ?_, ?_, ?_, ?_, ?_, ?_, ?_, ?_, ?_, ?_, ?_⟩
  · simp [processResponse, parseResponse, hparse, hsc, handleApiErrorResponse, hok]
  · simp
  · intro em hem hne
    simp only [hem, jsTruthy, jsDisplay, jsDisplayJson, List.mem_append]
    simp [hne]
  · intro es i e ls h1 hi hentry l hl
    have := hP1 es i e ls h1 hi hentry l hl
    simp only [List.mem_append]
    tauto
  · intro es i e m f h1 hi hm hf hfne hc0 hd0
    obtain ⟨ekvs, he⟩ := getField_some_obj _ _ _ hm
    subst he
    have hentry : errEntryLines i (Json.obj ekvs) = Except.ok
        ["  " ++ toString (i + 1) ++ ". " ++ m ++ " (field: " ++ f ++ ")"] := by
      simp [errEntryLines, jsGetE, hm, hf, hc0, hd0, jsTruthy, hfne, jsDisplay, jsDisplayJson,
        String.append_assoc, String.append_empty]
    have := hP1 es i (Json.obj ekvs) _ h1 hi hentry
      ("  " ++ toString (i + 1) ++ ". " ++ m ++ " (field: " ++ f ++ ")") (by simp)
    simp only [List.mem_append]
    tauto
  · intro es i e d h1 hi hd htr
    obtain ⟨ekvs, he⟩ := getField_some_obj _ _ _ hd
    subst he
    obtain ⟨ls, hls⟩ := errEntryLines_ok i (Json.obj ekvs) (by simp)
    have hdl : ("     " ++ detailsToStr (some d)) ∈ ls := by
      simp only [errEntryLines, jsGetE, hd, htr, if_true] at hls
      injection hls with hls'
      subst hls'
      simp
    have := hP1 es i (Json.obj ekvs) ls h1 hi hls _ hdl
    simp only [List.mem_append]
    tauto
  · intro hno d hd htr
    have := hP2 hno d hd htr
    simp only [List.mem_append]
    tauto
  · intro cid hcid hne
    have hmem : ("Comment ID: " ++ cid) ∈
        (if jsTruthy ((Json.obj kvs).getField "commentId")
         then ["", "Comment ID: " ++ jsDisplay ((Json.obj kvs).getField "commentId")] else []) := by
      simp only [hcid, jsTruthy, jsDisplay, jsDisplayJson]
      simp [hne]
    simp only [List.mem_append]
    tauto
  · intro h400
    have : "💡 Invalid request. Review the validation errors above." ∈
        hintLines resp.statusCode := by
      rw [h400]; simp [hintLines]
    simp only [List.mem_append]
    tauto
  · intro h401
    have : "💡 Authentication failed. Verify your API key is valid." ∈
        hintLines resp.statusCode := by
      rw [h401]; simp [hintLines]
    simp only [List.mem_append]
    tauto
  · intro h403
    have : "💡 Access forbidden. Check your API key permissions." ∈
        hintLines resp.statusCode := by
      rw [h403]; simp [hintLines]
    simp only [List.mem_append]
    tauto
  · intro h500
    have : "💡 This is a server error. Check your API key and project configuration." ∈
        hintLines resp.statusCode := by
      rw [h500]; simp [hintLines]
    simp only [List.mem_append]
    tauto

/-- C6 witness: the spec's mocked `422` response: the run fails with a
message containing the numbered `bad field (field: environment)` line,
and the `response` output is set to the parsed body before the failure
is signalled. -/
theorem c6_error_diagnostic_witness :
    ∃ L,
      apiErrorLines 422
          (Json.obj [("errors", Json.arr
            [Json.obj [("message", Json.str "bad field"), ("field", Json.str "environment")]])])
        = Except.ok L ∧
      processResponse
          { statusCode := 422,
            data := "\x7b\"errors\":[\x7b\"message\":\"bad field\",\"field\":\"environment\"\x7d]\x7d" }
          Mode.simple
        = ([Effect.setOutput "response"
              (Json.stringify (Json.obj [("errors", Json.arr
                [Json.obj [("message", Json.str "bad field"),
                           ("field", Json.str "environment")]])])),
            Effect.setFailed (String.intercalate "\n" L)], Outcome.ok) ∧
      "  1. bad field (field: environment)" ∈ L := by
  obtain ⟨L, hok, hproc, _, _, _, hmf, _, _, _, _, _, _, _⟩ :=
    c6_error_diagnostic
      { statusCode := 422,
        data := "\x7b\"errors\":[\x7b\"message\":\"bad field\",\"field\":\"environment\"\x7d]\x7d" }
      [("errors", Json.arr
        [Json.obj [("message", Json.str "bad field"), ("field", Json.str "environment")]])]
      Mode.simple (by decide) rfl
      (by
        intro es h e he hnull
        rw [show (Json.obj [("errors", Json.arr
              [Json.obj [("message", Json.str "bad field"),
                         ("field", Json.str "environment")]])]).getField "errors"
            = some (Json.arr [Json.obj [("message", Json.str "bad field"),
                                        ("field", Json.str "environment")]]) from rfl] at h
        injection h with h'
        injection h' with h''
        rw [← h''] at he
        simp at he
        rw [he] at hnull
        cases hnull)
  refine ⟨L, hok, hproc, ?_⟩
  have := hmf
    [Json.obj [("message", Json.str "bad field"), ("field", Json.str "environment")]] 0
    (Json.obj [("message", Json.str "bad field"), ("field", Json.str "environment")])
    "bad field" "environment" rfl rfl rfl rfl (by decide) rfl rfl
  simpa using this

end DevHerald
